import Mathlib

/-!
# crypto-exchange: transaction write/read coordination

A shallow embedding of `services/transaction_service.go` together with the
backends it drives (`redis_service.go`, `cassandra_service.go`,
`kafka_service.go`, and the GORM handle on PostgreSQL).

Each backend is a piece of explicit state.  Every call that can fail takes its
outcome from an `Env` record, so that a statement quantified over `Env` ranges
over every combination of backend successes and failures.  Every backend call
is also appended to a call log, which plays the part of a spy adapter.
-/

namespace CryptoExchange

/-! ## Errors -/

/-- Error values that flow through the services. -/
inductive Err where
  /-- The sentinel `gorm.ErrRecordNotFound`. -/
  | ErrRecordNotFound
  /-- The sentinel `redis.Nil`, returned by a `GET` on an absent key. -/
  | Nil
  /-- A value built by `errors.New(text)`. -/
  | New (text : String)
  /-- Any other error raised by a driver or by `encoding/json`. -/
  | backend (text : String)
  deriving DecidableEq, Repr

/-! ## models/transaction.go -/

/-- The record `models.Transaction`.  The services use `tx.ID` as a string
(cache key, log field, map key in the mock), so `ID` is a `String` here.
The `float64` fields are carried as exact rationals; the field `Type` is
spelled `Type_`, `Type` being reserved. -/
structure Transaction where
  ID : String
  UserID : Nat
  Amount : Rat
  Type_ : String
  Status : String
  CryptoType : String
  TransactionID : String
  CryptoAmount : Rat
  CryptoSymbol : String
  TransactionFee : Rat
  CreatedAt : Int
  UpdatedAt : Int
  DeletedAt : Int
  deriving DecidableEq, Repr

/-- The zero value `models.Transaction{}`. -/
def Transaction.zero : Transaction :=
  { ID := "", UserID := 0, Amount := 0, Type_ := "", Status := "",
    CryptoType := "", TransactionID := "", CryptoAmount := 0,
    CryptoSymbol := "", TransactionFee := 0,
    CreatedAt := 0, UpdatedAt := 0, DeletedAt := 0 }

/-! ## Backends -/

/-- A row of the Cassandra table `transactions (id, amount, type, status)`. -/
structure CassandraRow where
  id : String
  amount : Rat
  type : String
  status : String
  deriving DecidableEq, Repr

/-- A Redis entry: key, value and the expiration it was stored with
(in nanoseconds, as a `time.Duration`). -/
structure RedisEntry where
  key : String
  value : String
  expiration : Nat
  deriving DecidableEq, Repr

/-- The constant `time.Minute`, in nanoseconds. -/
def Minute : Nat := 60 * 1000000000

/-- One call made on a backend. -/
inductive Call where
  | dbBegin
  | dbCreate (tx : Transaction)
  | dbRollback
  | dbCommit
  | dbFirst (id : String)
  | cassandraInsert (row : CassandraRow)
  | cassandraGet (id : String)
  | redisSet (key value : String) (expiration : Nat)
  | redisGet (key : String)
  | kafkaPublish (message : String)
  deriving DecidableEq, Repr

/-- The contents of the four backends. -/
structure Backends where
  /-- Committed rows of the PostgreSQL table, primary key `ID`. -/
  postgres : List Transaction
  /-- Rows of the Cassandra table, primary key `id`. -/
  cassandra : List CassandraRow
  /-- Live Redis entries. -/
  redis : List RedisEntry
  /-- Messages written to the Kafka topic, oldest first. -/
  kafka : List String
  deriving DecidableEq, Repr

/-- Outcomes of the fallible steps.  `none` in an error field means that the
backend performs the call; `some e` means that the call fails with `e` and
changes nothing.  `Marshal` and `Unmarshal` stand for `json.Marshal` and
`json.Unmarshal` on `models.Transaction`; `now` is the Unix time GORM reads
when it creates a row. -/
structure Env where
  now : Int
  beginErr : Option Err
  createErr : Option Err
  insertErr : Option Err
  setErr : Option Err
  publishErr : Option Err
  commitErr : Option Err
  getErr : Option Err
  firstErr : Option Err
  Marshal : Transaction → Except Err String
  Unmarshal : String → Except Err Transaction

/-- Row lookup by primary key in PostgreSQL. -/
def pgFind (rows : List Transaction) (id : String) : Option Transaction :=
  rows.find? (fun r => r.ID == id)

/-- What `Create` writes back through the pointer `&tx`: GORM fills the
`int64` fields `CreatedAt` and `UpdatedAt` with the current Unix time when they
are zero, and leaves every other field as it was. -/
def stamp (now : Int) (tx : Transaction) : Transaction :=
  { tx with
    CreatedAt := if tx.CreatedAt = 0 then now else tx.CreatedAt,
    UpdatedAt := if tx.UpdatedAt = 0 then now else tx.UpdatedAt }

/-- The statement `txDB.Create(&tx)` inside an open database transaction: it
fails when the driver fails or when the primary key is already taken, and
otherwise yields the rows pending in the transaction, that is the record with
its timestamps filled; the same record is what `tx` holds afterwards. -/
def dbCreate (env : Env) (rows : List Transaction) (tx : Transaction) :
    Except Err (List Transaction) :=
  match env.createErr with
  | some e => .error e
  | none =>
    match pgFind rows tx.ID with
    | some _ => .error (.backend "duplicate key value violates unique constraint")
    | none => .ok [stamp env.now tx]

/-- The query `s.DB.First(&tx, "id = ?", id)`. -/
def dbFirst (env : Env) (rows : List Transaction) (id : String) :
    Except Err Transaction :=
  match env.firstErr with
  | some e => .error e
  | none =>
    match pgFind rows id with
    | some r => .ok r
    | none => .error .ErrRecordNotFound

/-- Row lookup by primary key in Cassandra. -/
def cassFind (rows : List CassandraRow) (id : String) : Option CassandraRow :=
  rows.find? (fun r => r.id == id)

/-- The columns `CassandraService.InsertTransaction` binds:
`tx.ID, tx.Amount, tx.Type, tx.Status`. -/
def cassRow (tx : Transaction) : CassandraRow :=
  { id := tx.ID, amount := tx.Amount, type := tx.Type_, status := tx.Status }

/-- Method `CassandraService.InsertTransaction`: a CQL `INSERT`, which writes the row
under its primary key whether or not one was there. -/
def InsertTransaction (env : Env) (rows : List CassandraRow) (tx : Transaction) :
    Option Err × List CassandraRow :=
  match env.insertErr with
  | some e => (some e, rows)
  | none => (none, cassRow tx :: rows.filter (fun r => r.id != tx.ID))

/-- Entry lookup by key in Redis. -/
def redisFind (entries : List RedisEntry) (key : String) : Option RedisEntry :=
  entries.find? (fun e => e.key == key)

/-- Method `RedisService.Set`: stores the pair with its expiration, replacing
any entry under the key. -/
def RedisService.Set (env : Env) (entries : List RedisEntry)
    (key value : String) (expiration : Nat) : Option Err × List RedisEntry :=
  match env.setErr with
  | some e => (some e, entries)
  | none =>
    (none, { key := key, value := value, expiration := expiration } ::
      entries.filter (fun e => e.key != key))

/-- Method `RedisService.Get`: the stored value, or `redis.Nil` on an absent key. -/
def RedisService.Get (env : Env) (entries : List RedisEntry) (key : String) :
    Except Err String :=
  match env.getErr with
  | some e => .error e
  | none =>
    match redisFind entries key with
    | some e => .ok e.value
    | none => .error .Nil

/-- Method `KafkaService.Publish`: appends the message to the topic. -/
def KafkaService.Publish (env : Env) (topic : List String) (message : String) :
    Option Err × List String :=
  match env.publishErr with
  | some e => (some e, topic)
  | none => (none, topic ++ [message])

/-- What a service method hands back: the returned pair, the backends after
the call, and the backend calls it made, in order. -/
structure Outcome where
  tx : Transaction
  err : Option Err
  st : Backends
  calls : List Call
  deriving DecidableEq, Repr

/-! ## services/transaction_service.go -/

/-- Method `TransactionServiceDB.CreateTransaction`.  The rows inserted through
the handle `txDB` stay pending until `Commit`; `Rollback` and a failed `Commit`
drop them.  `Create` receives `&tx`, so every later step works on the record
with its timestamps filled. -/
def CreateTransaction (env : Env) (st : Backends) (tx : Transaction) : Outcome :=
  -- Start a database transaction
  match env.beginErr with
  | some e => { tx := Transaction.zero, err := some e, st := st, calls := [.dbBegin] }
  | none =>
  -- Create the transaction in PostgreSQL
  match dbCreate env st.postgres tx with
  | .error e =>
    { tx := Transaction.zero, err := some e, st := st,
      calls := [.dbBegin, .dbCreate tx, .dbRollback] }
  | .ok pending =>
  -- from here on `tx` is the record as `Create(&tx)` left it
  let created := stamp env.now tx
  -- Insert into Cassandra
  match InsertTransaction env st.cassandra created with
  | (some e, _) =>
    { tx := Transaction.zero, err := some e, st := st,
      calls := [.dbBegin, .dbCreate tx, .cassandraInsert (cassRow created), .dbRollback] }
  | (none, cass) =>
  -- Cache the transaction in Redis
  match env.Marshal created with
  | .error e =>
    { tx := Transaction.zero, err := some e, st := { st with cassandra := cass },
      calls := [.dbBegin, .dbCreate tx, .cassandraInsert (cassRow created), .dbRollback] }
  | .ok txJSON =>
  -- a failed Set is logged and not acted upon
  let redis := (RedisService.Set env st.redis created.ID txJSON (Minute * 10)).2
  -- a failed Publish is logged and not acted upon
  let kafka := (KafkaService.Publish env st.kafka txJSON).2
  let calls : List Call :=
    [.dbBegin, .dbCreate tx, .cassandraInsert (cassRow created),
     .redisSet created.ID txJSON (Minute * 10), .kafkaPublish txJSON, .dbCommit]
  -- Commit the transaction
  match env.commitErr with
  | some e =>
    { tx := Transaction.zero, err := some e,
      st := { st with cassandra := cass, redis := redis, kafka := kafka },
      calls := calls }
  | none =>
    { tx := created, err := none,
      st := { postgres := st.postgres ++ pending, cassandra := cass,
              redis := redis, kafka := kafka },
      calls := calls }

/-- The first half of `GetTransactionByID`: the record the cache yields, when
the `Get` succeeds and its value deserializes. -/
def cachedTx (env : Env) (st : Backends) (id : String) : Option Transaction :=
  match RedisService.Get env st.redis id with
  | .error _ => none
  | .ok cached =>
    match env.Unmarshal cached with
    | .ok tx => some tx
    | .error _ => none

/-- Method `TransactionServiceDB.GetTransactionByID`. -/
def GetTransactionByID (env : Env) (st : Backends) (id : String) : Outcome :=
  -- Attempt to retrieve from Redis cache
  match cachedTx env st id with
  | some tx => { tx := tx, err := none, st := st, calls := [.redisGet id] }
  | none =>
  -- If not in cache, retrieve from PostgreSQL
  match dbFirst env st.postgres id with
  | .error e =>
    if e = .ErrRecordNotFound then
      { tx := Transaction.zero, err := some (.New "transaction not found"), st := st,
        calls := [.redisGet id, .dbFirst id] }
    else
      { tx := Transaction.zero, err := some e, st := st,
        calls := [.redisGet id, .dbFirst id] }
  | .ok tx =>
  -- Cache the retrieved transaction in Redis
  match env.Marshal tx with
  | .ok txJSON =>
    { tx := tx, err := none,
      st := { st with redis := (RedisService.Set env st.redis id txJSON (Minute * 10)).2 },
      calls := [.redisGet id, .dbFirst id, .redisSet id txJSON (Minute * 10)] }
  | .error _ =>
    { tx := tx, err := none, st := st, calls := [.redisGet id, .dbFirst id] }

/-! ## services/mock_transaction_service.go -/

/-- The struct `MockTransactionService`: the map `transactions`, kept as an
association list with at most one pair per key written by `CreateTransaction`.
The mutex is not modelled: calls are taken one at a time. -/
structure MockTransactionService where
  transactions : List (String × Transaction)
  deriving DecidableEq, Repr

/-- Constructor `NewMockTransactionService`: an empty map. -/
def NewMockTransactionService : MockTransactionService :=
  { transactions := [] }

/-- Method `MockTransactionService.CreateTransaction`: the returned pair and
the service afterwards. -/
def MockTransactionService.CreateTransaction (s : MockTransactionService)
    (tx : Transaction) : (Transaction × Option Err) × MockTransactionService :=
  if tx.ID = "" then
    ((Transaction.zero, some (.New "transaction ID cannot be empty")), s)
  else
    match s.transactions.lookup tx.ID with
    | some _ => ((Transaction.zero, some (.New "transaction ID already exists")), s)
    | none =>
      ((tx, none),
       { transactions := (tx.ID, tx) :: s.transactions.filter (fun kv => kv.1 != tx.ID) })

/-- Method `MockTransactionService.GetTransactionByID`. -/
def MockTransactionService.GetTransactionByID (s : MockTransactionService)
    (id : String) : Transaction × Option Err :=
  match s.transactions.lookup id with
  | none => (Transaction.zero, some (.New "transaction not found"))
  | some tx => (tx, none)

/-! ## controllers/transaction_controller.go -/

/-- The reply a handler writes: the HTTP status, and the record in the body
when there is one. -/
structure Reply where
  status : Nat
  body : Option Transaction
  deriving DecidableEq, Repr

/-- Handler `TransactionController.GetTransaction` bound to `TransactionServiceDB`:
the reply, the backends afterwards and the backend calls made. -/
def GetTransaction (env : Env) (st : Backends) (id : String) :
    Reply × Backends × List Call :=
  if id = "" then
    ({ status := 400, body := none }, st, [])
  else
    -- Retrieve the transaction using the service
    let o := GetTransactionByID env st id
    match o.err with
    | some _ => ({ status := 404, body := none }, o.st, o.calls)
    | none => ({ status := 200, body := some o.tx }, o.st, o.calls)

/-! ## The data model of the specification -/

/-- The invariants the specification places on a single record: identifier
non-empty, amount and asset amount strictly positive, fee non-negative,
direction one of deposit and withdrawal, status one of pending, completed and
failed. -/
def DataModelInvariant (tx : Transaction) : Prop :=
  tx.ID ≠ "" ∧ 0 < tx.Amount ∧ 0 < tx.CryptoAmount ∧ 0 ≤ tx.TransactionFee ∧
  (tx.Type_ = "deposit" ∨ tx.Type_ = "withdrawal") ∧
  (tx.Status = "pending" ∨ tx.Status = "completed" ∨ tx.Status = "failed")

instance (tx : Transaction) : Decidable (DataModelInvariant tx) := by
  unfold DataModelInvariant
  exact inferInstance

/-! ## Sample data

The record of the concrete scenario, an environment in which every backend
call succeeds, and empty backends. -/

/-- The record `tx-1` of the concrete scenario. -/
def tx1 : Transaction :=
  { ID := "tx-1", UserID := 1, Amount := 100, Type_ := "deposit", Status := "pending",
    CryptoType := "bitcoin", TransactionID := "tx-1", CryptoAmount := 1 / 500,
    CryptoSymbol := "BTC", TransactionFee := 1 / 2,
    CreatedAt := 0, UpdatedAt := 0, DeletedAt := 0 }

/-- A record with a non-empty identifier that breaks every other invariant of
the data model: amounts not positive, fee negative, direction and status
outside their sets. -/
def txBad : Transaction :=
  { ID := "tx-bad", UserID := 1, Amount := -5, Type_ := "transfer", Status := "unknown",
    CryptoType := "bitcoin", TransactionID := "tx-bad", CryptoAmount := 0,
    CryptoSymbol := "BTC", TransactionFee := -1,
    CreatedAt := 0, UpdatedAt := 0, DeletedAt := 0 }

/-- A serializer for the samples: `tx-1` goes to one text before its creation
time is filled and to another afterwards, `tx-bad` goes to a fixed text,
anything else is refused. -/
def sampleMarshal (tx : Transaction) : Except Err String :=
  if tx.ID = "tx-1" then
    if tx.CreatedAt = 0 then .ok "json(tx-1)" else .ok "json(tx-1 created)"
  else if tx.ID = "tx-bad" then .ok "json(tx-bad)"
  else .error (.backend "json: unsupported value")

/-- The matching deserializer for the two texts of `tx-1`. -/
def sampleUnmarshal (text : String) : Except Err Transaction :=
  if text = "json(tx-1)" then .ok tx1
  else if text = "json(tx-1 created)" then .ok (stamp 1700000000 tx1)
  else .error (.backend "json: invalid character")

/-- Every backend call succeeds; rows are created at Unix time 1700000000. -/
def envOK : Env :=
  { now := 1700000000, beginErr := none, createErr := none, insertErr := none, setErr := none,
    publishErr := none, commitErr := none, getErr := none, firstErr := none,
    Marshal := sampleMarshal, Unmarshal := sampleUnmarshal }

/-- Cassandra refuses the insert; everything else succeeds. -/
def envCassandraDown : Env :=
  { envOK with insertErr := some (.backend "gocql: no hosts available") }

/-- The commit fails; everything else succeeds. -/
def envCommitDown : Env :=
  { envOK with commitErr := some (.backend "commit failed") }

/-- Redis and Kafka both fail; everything else succeeds. -/
def envBestEffortDown : Env :=
  { envOK with setErr := some (.backend "redis: connection refused"),
               publishErr := some (.backend "kafka: leader not available") }

/-- Redis refuses the put and the commit fails; everything else succeeds. -/
def envRedisAndCommitDown : Env :=
  { envOK with setErr := some (.backend "redis: connection refused"),
               commitErr := some (.backend "commit failed") }

/-- The PostgreSQL read fails; everything else succeeds. -/
def envReadDown : Env :=
  { envOK with firstErr := some (.backend "pq: connection reset") }

/-- Backends holding nothing. -/
def noData : Backends :=
  { postgres := [], cassandra := [], redis := [], kafka := [] }

/-- PostgreSQL holds `tx-1`; the cache is cold. -/
def coldCache : Backends :=
  { postgres := [tx1], cassandra := [cassRow tx1], redis := [], kafka := [] }

/-! ## Sequences of calls on the mock -/

/-- Runs `CreateTransaction` on the mock once per record, in order: the service
after the last call, and the pair each call returned. -/
def createAll (s : MockTransactionService) :
    List Transaction → MockTransactionService × List (Transaction × Option Err)
  | [] => (s, [])
  | tx :: rest =>
    ((createAll (s.CreateTransaction tx).2 rest).1,
     (s.CreateTransaction tx).1 :: (createAll (s.CreateTransaction tx).2 rest).2)

/-- A map with previous content: `tx-1` is stored. -/
def mockWithTx1 : MockTransactionService :=
  { transactions := [("tx-1", tx1)] }

/-- A second record that reuses the identifier `tx-1`. -/
def tx1Again : Transaction :=
  { tx1 with UserID := 2, Amount := 7, Status := "completed" }

/-- A record with the fresh identifier `tx-2`. -/
def tx2 : Transaction :=
  { tx1 with ID := "tx-2", TransactionID := "tx-2", Type_ := "withdrawal" }

/-! ## The binding rule of models/transaction.go

The `binding` tags of `models.Transaction` are checked by `ShouldBindJSON`.
Each tag is a predicate on a field value. -/

/-- Tag `required` on a string field: not the zero value. -/
def requiredString (v : String) : Bool := v != ""

/-- Tag `required` on a `uint` field: not the zero value. -/
def requiredUint (v : Nat) : Bool := v != 0

/-- Tag `required` on a `float64` field: not the zero value. -/
def requiredFloat (v : Rat) : Bool := v != 0

/-- Tag `gt=p` on a `float64` field. -/
def gtFloat (p v : Rat) : Bool := decide (p < v)

/-- Tag `oneof=a b ...` on a string field. -/
def oneof (options : List String) (v : String) : Bool := options.contains v

/-- The `binding` tags of `models.Transaction`, field by field in the order of
the struct; `CreatedAt`, `UpdatedAt` and `DeletedAt` carry none. -/
def Transaction.binding (tx : Transaction) : Bool :=
  requiredString tx.ID &&
  requiredUint tx.UserID &&
  (requiredFloat tx.Amount && gtFloat 0 tx.Amount) &&
  (requiredString tx.Type_ && oneof ["deposit", "withdrawal"] tx.Type_) &&
  (requiredString tx.Status && oneof ["pending", "completed", "failed"] tx.Status) &&
  requiredString tx.CryptoType &&
  requiredString tx.TransactionID &&
  (requiredFloat tx.CryptoAmount && gtFloat 0 tx.CryptoAmount) &&
  requiredString tx.CryptoSymbol &&
  (requiredFloat tx.TransactionFee && gtFloat 0 tx.TransactionFee)

/-- Handler `TransactionController.CreateTransaction` bound to
`TransactionServiceDB`, on a decoded payload: the reply, the backends
afterwards and the backend calls made. -/
def TransactionController.CreateTransaction (env : Env) (st : Backends)
    (tx : Transaction) : Reply × Backends × List Call :=
  -- Bind JSON input to Transaction model
  if tx.binding = false then
    ({ status := 400, body := none }, st, [])
  else
    -- Create the transaction using the service
    let o := CryptoExchange.CreateTransaction env st tx
    match o.err with
    | some _ => ({ status := 500, body := none }, o.st, o.calls)
    | none => ({ status := 201, body := some o.tx }, o.st, o.calls)

/-- The record `tx-1` with a fee of zero. -/
def txFeeZero : Transaction :=
  { tx1 with TransactionFee := 0 }

/-- The record `tx-1` with no asset symbol. -/
def txNoSymbol : Transaction :=
  { tx1 with CryptoSymbol := "" }

/-! ## Lookup lemmas -/

theorem stamp_ID (now : Int) (tx : Transaction) : (stamp now tx).ID = tx.ID := rfl

theorem cassRow_stamp (now : Int) (tx : Transaction) :
    cassRow (stamp now tx) = cassRow tx := rfl

theorem stamp_restore (now : Int) (tx : Transaction) :
    { stamp now tx with CreatedAt := tx.CreatedAt, UpdatedAt := tx.UpdatedAt } = tx := rfl

theorem stamp_of_filled (now : Int) (tx : Transaction)
    (hc : tx.CreatedAt ≠ 0) (hu : tx.UpdatedAt ≠ 0) : stamp now tx = tx := by
  simp [stamp, hc, hu]

theorem pgFind_append_self (rows : List Transaction) (tx : Transaction)
    (h : pgFind rows tx.ID = none) : pgFind (rows ++ [tx]) tx.ID = some tx := by
  unfold pgFind at *
  simp [List.find?_append, h]

theorem pgFind_append_stamp (rows : List Transaction) (now : Int) (tx : Transaction)
    (h : pgFind rows tx.ID = none) :
    pgFind (rows ++ [stamp now tx]) tx.ID = some (stamp now tx) :=
  pgFind_append_self rows (stamp now tx) h

theorem dbCreate_ok (env : Env) (rows : List Transaction) (tx : Transaction)
    (pending : List Transaction) (h : dbCreate env rows tx = .ok pending) :
    env.createErr = none ∧ pgFind rows tx.ID = none ∧ pending = [stamp env.now tx] := by
  unfold dbCreate at h
  cases hc : env.createErr with
  | some e => simp [hc] at h
  | none =>
    cases hf : pgFind rows tx.ID with
    | some r => simp [hc, hf] at h
    | none =>
      simp only [hc, hf] at h
      injection h with h
      exact ⟨rfl, rfl, h.symm⟩

theorem dbFirst_absent (env : Env) (rows : List Transaction) (id : String)
    (henv : env.firstErr = none) (h : pgFind rows id = none) :
    dbFirst env rows id = .error .ErrRecordNotFound := by
  simp [dbFirst, henv, h]

/-! ## The write path -/

/-- C1: when the PostgreSQL insert succeeds and the Cassandra insert fails with
`e`, `CreateTransaction` returns `e` with the zero record, leaves every backend
as it was (the pending row is rolled back), so that a later primary lookup of
the identifier finds no row, and its calls are exactly begin, create, the
Cassandra insert and rollback: no cache put, no publish, no commit. -/
theorem createTransaction_cassandra_failure (env : Env) (st : Backends)
    (tx : Transaction) (pending : List Transaction) (e : Err)
    (hbegin : env.beginErr = none)
    (hcreate : dbCreate env st.postgres tx = .ok pending)
    (hinsert : env.insertErr = some e) :
    (CreateTransaction env st tx).err = some e ∧
    (CreateTransaction env st tx).tx = Transaction.zero ∧
    (CreateTransaction env st tx).st = st ∧
    pgFind (CreateTransaction env st tx).st.postgres tx.ID = none ∧
    (∀ env2 : Env, env2.firstErr = none →
      dbFirst env2 (CreateTransaction env st tx).st.postgres tx.ID
        = .error .ErrRecordNotFound) ∧
    (CreateTransaction env st tx).calls
      = [.dbBegin, .dbCreate tx, .cassandraInsert (cassRow tx), .dbRollback] := by
  obtain ⟨_, habsent, _⟩ := dbCreate_ok env st.postgres tx pending hcreate
  have hrun : CreateTransaction env st tx =
      { tx := Transaction.zero, err := some e, st := st,
        calls := [.dbBegin, .dbCreate tx, .cassandraInsert (cassRow tx), .dbRollback] } := by
    simp [CreateTransaction, hbegin, hcreate, InsertTransaction, hinsert, cassRow_stamp]
  rw [hrun]
  exact ⟨rfl, rfl, rfl, habsent, fun env2 h2 => dbFirst_absent env2 _ _ h2 habsent, rfl⟩

/-- C1 at a concrete input: `tx-1` on empty backends with Cassandra down. -/
theorem createTransaction_cassandra_failure_witness :
    (CreateTransaction envCassandraDown noData tx1).err
      = some (.backend "gocql: no hosts available") ∧
    (CreateTransaction envCassandraDown noData tx1).tx = Transaction.zero ∧
    (CreateTransaction envCassandraDown noData tx1).st = noData ∧
    pgFind (CreateTransaction envCassandraDown noData tx1).st.postgres tx1.ID = none ∧
    (∀ env2 : Env, env2.firstErr = none →
      dbFirst env2 (CreateTransaction envCassandraDown noData tx1).st.postgres tx1.ID
        = .error .ErrRecordNotFound) ∧
    (CreateTransaction envCassandraDown noData tx1).calls
      = [.dbBegin, .dbCreate tx1, .cassandraInsert (cassRow tx1), .dbRollback] :=
  createTransaction_cassandra_failure envCassandraDown noData tx1
    [stamp 1700000000 tx1] (.backend "gocql: no hosts available") rfl rfl rfl

/-- C2, as stated, fails: when only the commit fails on empty backends,
`CreateTransaction` returns an error, PostgreSQL holds no row for `tx-1`, and
Cassandra holds its row. -/
theorem createTransaction_commit_failure_keeps_cassandra_row :
    (CreateTransaction envCommitDown noData tx1).err = some (.backend "commit failed") ∧
    pgFind noData.postgres tx1.ID = none ∧
    cassFind noData.cassandra tx1.ID = none ∧
    pgFind (CreateTransaction envCommitDown noData tx1).st.postgres tx1.ID = none ∧
    cassFind (CreateTransaction envCommitDown noData tx1).st.cassandra tx1.ID
      = some (cassRow tx1) :=
  ⟨rfl, rfl, rfl, rfl, rfl⟩

theorem cassFind_inserted (rows : List CassandraRow) (tx : Transaction) :
    cassFind (cassRow tx :: rows.filter (fun r => r.id != tx.ID)) tx.ID
      = some (cassRow tx) := by
  simp [cassFind, cassRow]

/-- C2, amended: on backends that hold no row for the identifier, a successful
`CreateTransaction` leaves the record, with its timestamps filled, in
PostgreSQL and its row in Cassandra; a failed one leaves no row in PostgreSQL,
and leaves the Cassandra row exactly when begin, the PostgreSQL insert and the
Cassandra insert had all succeeded, that is when the failure is at
serialization or at commit. -/
theorem createTransaction_store_agreement (env : Env) (st : Backends) (tx : Transaction)
    (hpg : pgFind st.postgres tx.ID = none)
    (hcass : cassFind st.cassandra tx.ID = none) :
    ((CreateTransaction env st tx).err = none →
      pgFind (CreateTransaction env st tx).st.postgres tx.ID = some (stamp env.now tx) ∧
      cassFind (CreateTransaction env st tx).st.cassandra tx.ID = some (cassRow tx)) ∧
    ((CreateTransaction env st tx).err ≠ none →
      pgFind (CreateTransaction env st tx).st.postgres tx.ID = none ∧
      (cassFind (CreateTransaction env st tx).st.cassandra tx.ID = some (cassRow tx) ↔
        env.beginErr = none ∧ env.createErr = none ∧ env.insertErr = none) ∧
      (cassFind (CreateTransaction env st tx).st.cassandra tx.ID = none ↔
        ¬ (env.beginErr = none ∧ env.createErr = none ∧ env.insertErr = none))) := by
  have hins := cassFind_inserted st.cassandra tx
  have happ := pgFind_append_stamp st.postgres env.now tx hpg
  cases hb : env.beginErr with
  | some e => simp [CreateTransaction, hb, hpg, hcass]
  | none =>
    cases hc : env.createErr with
    | some e => simp [CreateTransaction, dbCreate, hb, hc, hpg, hcass]
    | none =>
      cases hi : env.insertErr with
      | some e =>
        simp [CreateTransaction, dbCreate, InsertTransaction, hb, hc, hi, hpg, hcass]
      | none =>
        cases hm : env.Marshal (stamp env.now tx) with
        | error e =>
          simp [CreateTransaction, dbCreate, InsertTransaction, hb, hc, hi, hm, hpg, hins,
            cassRow_stamp, stamp_ID]
        | ok txJSON =>
          cases hk : env.commitErr with
          | some e =>
            simp [CreateTransaction, dbCreate, InsertTransaction, hb, hc, hi, hm, hk,
              hpg, hins, cassRow_stamp, stamp_ID]
          | none =>
            simp [CreateTransaction, dbCreate, InsertTransaction, hb, hc, hi, hm, hk,
              hpg, hins, happ, cassRow_stamp, stamp_ID]

/-- C2, amended, at a concrete input: `tx-1` on empty backends with the commit
failing. -/
theorem createTransaction_store_agreement_witness :
    pgFind noData.postgres tx1.ID = none ∧ cassFind noData.cassandra tx1.ID = none ∧
    ((CreateTransaction envCommitDown noData tx1).err ≠ none →
      pgFind (CreateTransaction envCommitDown noData tx1).st.postgres tx1.ID = none ∧
      (cassFind (CreateTransaction envCommitDown noData tx1).st.cassandra tx1.ID
          = some (cassRow tx1) ↔
        envCommitDown.beginErr = none ∧ envCommitDown.createErr = none ∧
          envCommitDown.insertErr = none) ∧
      (cassFind (CreateTransaction envCommitDown noData tx1).st.cassandra tx1.ID = none ↔
        ¬ (envCommitDown.beginErr = none ∧ envCommitDown.createErr = none ∧
          envCommitDown.insertErr = none))) :=
  ⟨rfl, rfl, (createTransaction_store_agreement envCommitDown noData tx1 rfl rfl).2⟩

/-- C3: when begin, the PostgreSQL insert, the Cassandra insert, serialization
and commit succeed, `CreateTransaction` returns the record with no error for
every outcome `s` of the cache put and every outcome `p` of the publish; no
rollback is issued and the record is committed to PostgreSQL.  The record
returned and committed is the one `Create` left in `tx`: the input with
`CreatedAt` and `UpdatedAt` filled when they were zero, so putting the two
input timestamps back gives the input, and a record whose timestamps were
already set comes back as it went in. -/
theorem createTransaction_best_effort (env : Env) (st : Backends) (tx : Transaction)
    (pending : List Transaction) (txJSON : String)
    (hbegin : env.beginErr = none)
    (hcreate : dbCreate env st.postgres tx = .ok pending)
    (hinsert : env.insertErr = none)
    (hmarshal : env.Marshal (stamp env.now tx) = .ok txJSON)
    (hcommit : env.commitErr = none) :
    ∀ s p : Option Err,
      (CreateTransaction { env with setErr := s, publishErr := p } st tx).tx
        = stamp env.now tx ∧
      { (CreateTransaction { env with setErr := s, publishErr := p } st tx).tx with
          CreatedAt := tx.CreatedAt, UpdatedAt := tx.UpdatedAt } = tx ∧
      (tx.CreatedAt ≠ 0 → tx.UpdatedAt ≠ 0 →
        (CreateTransaction { env with setErr := s, publishErr := p } st tx).tx = tx) ∧
      (CreateTransaction { env with setErr := s, publishErr := p } st tx).err = none ∧
      Call.dbRollback ∉
        (CreateTransaction { env with setErr := s, publishErr := p } st tx).calls ∧
      (CreateTransaction { env with setErr := s, publishErr := p } st tx).st.postgres
        = st.postgres ++ [stamp env.now tx] ∧
      pgFind (CreateTransaction { env with setErr := s, publishErr := p } st tx).st.postgres
        tx.ID = some (stamp env.now tx) := by
  intro s p
  obtain ⟨hc, habsent, _⟩ := dbCreate_ok env st.postgres tx pending hcreate
  have happ := pgFind_append_stamp st.postgres env.now tx habsent
  have hrun : CreateTransaction { env with setErr := s, publishErr := p } st tx =
      { tx := stamp env.now tx, err := none,
        st := { postgres := st.postgres ++ [stamp env.now tx],
                cassandra := cassRow tx :: st.cassandra.filter (fun r => r.id != tx.ID),
                redis := (RedisService.Set { env with setErr := s, publishErr := p }
                  st.redis tx.ID txJSON (Minute * 10)).2,
                kafka := (KafkaService.Publish { env with setErr := s, publishErr := p }
                  st.kafka txJSON).2 },
        calls := [.dbBegin, .dbCreate tx, .cassandraInsert (cassRow tx),
          .redisSet tx.ID txJSON (Minute * 10), .kafkaPublish txJSON, .dbCommit] } := by
    simp [CreateTransaction, dbCreate, InsertTransaction, hbegin, hc, habsent, hinsert,
      hmarshal, hcommit, cassRow_stamp, stamp_ID]
  rw [hrun]
  refine ⟨rfl, stamp_restore env.now tx, ?_, rfl, by simp, rfl, happ⟩
  intro hcr hup
  exact stamp_of_filled env.now tx hcr hup

/-- C3 at a concrete input: `tx-1` on empty backends, with Redis and Kafka
both failing; the record comes back with both timestamps at 1700000000. -/
theorem createTransaction_best_effort_witness :
    (CreateTransaction envBestEffortDown noData tx1).tx = stamp 1700000000 tx1 ∧
    (CreateTransaction envBestEffortDown noData tx1).tx.CreatedAt = 1700000000 ∧
    (CreateTransaction envBestEffortDown noData tx1).err = none ∧
    (CreateTransaction envBestEffortDown noData tx1).st.redis = [] ∧
    (CreateTransaction envBestEffortDown noData tx1).st.kafka = [] :=
  ⟨(createTransaction_best_effort envOK noData tx1 [stamp 1700000000 tx1]
      "json(tx-1 created)" rfl rfl rfl rfl rfl
      (some (.backend "redis: connection refused"))
      (some (.backend "kafka: leader not available"))).1,
   rfl,
   (createTransaction_best_effort envOK noData tx1 [stamp 1700000000 tx1]
      "json(tx-1 created)" rfl rfl rfl rfl rfl
      (some (.backend "redis: connection refused"))
      (some (.backend "kafka: leader not available"))).2.2.2.1,
   rfl, rfl⟩

/-! ## The read path -/

theorem cachedTx_hit (env : Env) (entries : List RedisEntry) (st : Backends)
    (id value : String) (expiration : Nat) (tx : Transaction)
    (hget : env.getErr = none) (hun : env.Unmarshal value = .ok tx)
    (hst : st.redis = { key := id, value := value, expiration := expiration } ::
      entries.filter (fun e => e.key != id)) :
    cachedTx env st id = some tx := by
  simp [cachedTx, RedisService.Get, redisFind, hget, hst, hun]

theorem cachedTx_absent (env : Env) (st : Backends) (id : String)
    (h : redisFind st.redis id = none) : cachedTx env st id = none := by
  unfold cachedTx RedisService.Get
  cases hg : env.getErr with
  | some e => simp
  | none => simp [h]

theorem getTransactionByID_hit (env : Env) (st : Backends) (id : String)
    (tx : Transaction) (h : cachedTx env st id = some tx) :
    GetTransactionByID env st id
      = { tx := tx, err := none, st := st, calls := [.redisGet id] } := by
  simp [GetTransactionByID, h]

theorem getTransactionByID_absent (env : Env) (st : Backends) (id : String)
    (hmiss : cachedTx env st id = none)
    (hfirst : dbFirst env st.postgres id = .error .ErrRecordNotFound) :
    GetTransactionByID env st id
      = { tx := Transaction.zero, err := some (.New "transaction not found"), st := st,
          calls := [.redisGet id, .dbFirst id] } := by
  simp [GetTransactionByID, hmiss, hfirst]

/-- C4, as stated, fails: when only the commit fails on empty backends, the
cache put has already stored `tx-1`, and the `GetTransactionByID` that follows
returns the record (with its timestamps filled) with no error, from the
cache. -/
theorem getTransactionByID_after_commit_failure_returns_record :
    (CreateTransaction envCommitDown noData tx1).err = some (.backend "commit failed") ∧
    (GetTransactionByID envOK (CreateTransaction envCommitDown noData tx1).st tx1.ID).tx
      = stamp 1700000000 tx1 ∧
    (GetTransactionByID envOK (CreateTransaction envCommitDown noData tx1).st tx1.ID).err
      = none ∧
    (GetTransactionByID envOK (CreateTransaction envCommitDown noData tx1).st tx1.ID).calls
      = [.redisGet "tx-1"] :=
  ⟨rfl, rfl, rfl, rfl⟩

/-- C4, amended: when `CreateTransaction` fails at the commit step with `e` it
returns `e` with the zero record and PostgreSQL holds no row for the
identifier.  The `GetTransactionByID` that follows fails with the not-found
error when the earlier cache put had failed and the cache held no earlier entry
for the identifier; when the earlier cache put had succeeded, the cache read
succeeds and the cached text deserializes to the record it was made from (the
record with its timestamps filled), it returns that record with no error, from
the cache alone. -/
theorem createTransaction_commit_failure (env : Env) (st : Backends) (tx : Transaction)
    (pending : List Transaction) (txJSON : String) (e : Err)
    (hbegin : env.beginErr = none)
    (hcreate : dbCreate env st.postgres tx = .ok pending)
    (hinsert : env.insertErr = none)
    (hmarshal : env.Marshal (stamp env.now tx) = .ok txJSON)
    (hcommit : env.commitErr = some e) :
    (CreateTransaction env st tx).err = some e ∧
    (CreateTransaction env st tx).tx = Transaction.zero ∧
    pgFind (CreateTransaction env st tx).st.postgres tx.ID = none ∧
    (∀ env2 : Env, env.setErr ≠ none → redisFind st.redis tx.ID = none →
      env2.firstErr = none →
      (GetTransactionByID env2 (CreateTransaction env st tx).st tx.ID).err
        = some (.New "transaction not found") ∧
      (GetTransactionByID env2 (CreateTransaction env st tx).st tx.ID).tx
        = Transaction.zero) ∧
    (∀ env2 : Env, env.setErr = none → env2.getErr = none →
      env2.Unmarshal txJSON = .ok (stamp env.now tx) →
      (GetTransactionByID env2 (CreateTransaction env st tx).st tx.ID).err = none ∧
      (GetTransactionByID env2 (CreateTransaction env st tx).st tx.ID).tx
        = stamp env.now tx ∧
      (GetTransactionByID env2 (CreateTransaction env st tx).st tx.ID).calls
        = [.redisGet tx.ID]) := by
  obtain ⟨hc, habsent, _⟩ := dbCreate_ok env st.postgres tx pending hcreate
  have hrun : CreateTransaction env st tx =
      { tx := Transaction.zero, err := some e,
        st := { st with
          cassandra := (InsertTransaction env st.cassandra (stamp env.now tx)).2,
          redis := (RedisService.Set env st.redis tx.ID txJSON (Minute * 10)).2,
          kafka := (KafkaService.Publish env st.kafka txJSON).2 },
        calls := [.dbBegin, .dbCreate tx, .cassandraInsert (cassRow tx),
          .redisSet tx.ID txJSON (Minute * 10), .kafkaPublish txJSON, .dbCommit] } := by
    simp [CreateTransaction, dbCreate, InsertTransaction, hbegin, hc, habsent, hinsert,
      hmarshal, hcommit, cassRow_stamp, stamp_ID]
  rw [hrun]
  refine ⟨rfl, rfl, habsent, ?_, ?_⟩
  · intro env2 hset hcold hfirst
    obtain ⟨e2, he2⟩ := Option.ne_none_iff_exists'.mp hset
    have hmiss : cachedTx env2
        { st with
          cassandra := (InsertTransaction env st.cassandra (stamp env.now tx)).2,
          redis := (RedisService.Set env st.redis tx.ID txJSON (Minute * 10)).2,
          kafka := (KafkaService.Publish env st.kafka txJSON).2 } tx.ID = none := by
      apply cachedTx_absent
      simp [RedisService.Set, he2, hcold]
    have hdb := dbFirst_absent env2 st.postgres tx.ID hfirst habsent
    rw [getTransactionByID_absent env2 _ tx.ID hmiss hdb]
    exact ⟨rfl, rfl⟩
  · intro env2 hset hget hun
    have hhit : cachedTx env2
        { st with
          cassandra := (InsertTransaction env st.cassandra (stamp env.now tx)).2,
          redis := (RedisService.Set env st.redis tx.ID txJSON (Minute * 10)).2,
          kafka := (KafkaService.Publish env st.kafka txJSON).2 } tx.ID
        = some (stamp env.now tx) := by
      apply cachedTx_hit env2 st.redis _ tx.ID txJSON (Minute * 10) (stamp env.now tx)
        hget hun
      simp [RedisService.Set, hset]
    rw [getTransactionByID_hit env2 _ tx.ID (stamp env.now tx) hhit]
    exact ⟨rfl, rfl, rfl⟩

/-- C4, amended, at a concrete input: `tx-1` on empty backends with Redis down
and the commit failing, where the read that follows finds nothing; and with
only the commit failing, where the read returns the cached record. -/
theorem createTransaction_commit_failure_witness :
    (CreateTransaction envRedisAndCommitDown noData tx1).err
      = some (.backend "commit failed") ∧
    (GetTransactionByID envOK (CreateTransaction envRedisAndCommitDown noData tx1).st
      tx1.ID).err = some (.New "transaction not found") ∧
    (GetTransactionByID envOK (CreateTransaction envCommitDown noData tx1).st
      tx1.ID).tx = stamp 1700000000 tx1 :=
  ⟨(createTransaction_commit_failure envRedisAndCommitDown noData tx1
      [stamp 1700000000 tx1] "json(tx-1 created)"
      (.backend "commit failed") rfl rfl rfl rfl rfl).1,
   ((createTransaction_commit_failure envRedisAndCommitDown noData tx1
      [stamp 1700000000 tx1] "json(tx-1 created)"
      (.backend "commit failed") rfl rfl rfl rfl rfl).2.2.2.1 envOK (by decide) rfl rfl).1,
   ((createTransaction_commit_failure envCommitDown noData tx1
      [stamp 1700000000 tx1] "json(tx-1 created)"
      (.backend "commit failed") rfl rfl rfl rfl rfl).2.2.2.2 envOK rfl rfl rfl).2.1⟩

/-- C5: when begin, both inserts, serialization, the cache put and commit of
`CreateTransaction` succeed (whatever the publish does), the cache read that
follows succeeds and the cached text deserializes to the record it was made
from, then `GetTransactionByID` on the same identifier returns the record
`CreateTransaction` returned, with no error, and its only backend call is the
cache read: no PostgreSQL read is made.  That record is the input with its
timestamps filled.  This holds for every record, valid or not. -/
theorem create_then_get_round_trip (env env2 : Env) (st : Backends) (tx : Transaction)
    (pending : List Transaction) (txJSON : String)
    (hbegin : env.beginErr = none)
    (hcreate : dbCreate env st.postgres tx = .ok pending)
    (hinsert : env.insertErr = none)
    (hmarshal : env.Marshal (stamp env.now tx) = .ok txJSON)
    (hset : env.setErr = none)
    (hcommit : env.commitErr = none)
    (hget : env2.getErr = none)
    (hinverse : env2.Unmarshal txJSON = .ok (stamp env.now tx)) :
    (CreateTransaction env st tx).err = none ∧
    (CreateTransaction env st tx).tx = stamp env.now tx ∧
    (GetTransactionByID env2 (CreateTransaction env st tx).st tx.ID).tx
      = (CreateTransaction env st tx).tx ∧
    (GetTransactionByID env2 (CreateTransaction env st tx).st tx.ID).err = none ∧
    (GetTransactionByID env2 (CreateTransaction env st tx).st tx.ID).calls
      = [.redisGet tx.ID] ∧
    (∀ id : String, Call.dbFirst id ∉
      (GetTransactionByID env2 (CreateTransaction env st tx).st tx.ID).calls) := by
  obtain ⟨hc, habsent, _⟩ := dbCreate_ok env st.postgres tx pending hcreate
  have hrun : CreateTransaction env st tx =
      { tx := stamp env.now tx, err := none,
        st := { postgres := st.postgres ++ [stamp env.now tx],
                cassandra := (InsertTransaction env st.cassandra (stamp env.now tx)).2,
                redis := (RedisService.Set env st.redis tx.ID txJSON (Minute * 10)).2,
                kafka := (KafkaService.Publish env st.kafka txJSON).2 },
        calls := [.dbBegin, .dbCreate tx, .cassandraInsert (cassRow tx),
          .redisSet tx.ID txJSON (Minute * 10), .kafkaPublish txJSON, .dbCommit] } := by
    simp [CreateTransaction, dbCreate, InsertTransaction, hbegin, hc, habsent, hinsert,
      hmarshal, hcommit, cassRow_stamp, stamp_ID]
  rw [hrun]
  have hhit : cachedTx env2
      { postgres := st.postgres ++ [stamp env.now tx],
        cassandra := (InsertTransaction env st.cassandra (stamp env.now tx)).2,
        redis := (RedisService.Set env st.redis tx.ID txJSON (Minute * 10)).2,
        kafka := (KafkaService.Publish env st.kafka txJSON).2 } tx.ID
      = some (stamp env.now tx) := by
    apply cachedTx_hit env2 st.redis _ tx.ID txJSON (Minute * 10) (stamp env.now tx)
      hget hinverse
    simp [RedisService.Set, hset]
  rw [getTransactionByID_hit env2 _ tx.ID (stamp env.now tx) hhit]
  refine ⟨rfl, rfl, rfl, rfl, rfl, ?_⟩
  intro id hmem
  simp at hmem

/-- C5 at a concrete input: `tx-1` created on empty backends and read back
with its timestamps at 1700000000. -/
theorem create_then_get_round_trip_witness :
    (CreateTransaction envOK noData tx1).err = none ∧
    (CreateTransaction envOK noData tx1).tx = stamp 1700000000 tx1 ∧
    (GetTransactionByID envOK (CreateTransaction envOK noData tx1).st tx1.ID).tx
      = (CreateTransaction envOK noData tx1).tx ∧
    (GetTransactionByID envOK (CreateTransaction envOK noData tx1).st tx1.ID).calls
      = [.redisGet "tx-1"] :=
  ⟨(create_then_get_round_trip envOK envOK noData tx1 [stamp 1700000000 tx1]
      "json(tx-1 created)" rfl rfl rfl rfl rfl rfl rfl rfl).1,
   (create_then_get_round_trip envOK envOK noData tx1 [stamp 1700000000 tx1]
      "json(tx-1 created)" rfl rfl rfl rfl rfl rfl rfl rfl).2.1,
   (create_then_get_round_trip envOK envOK noData tx1 [stamp 1700000000 tx1]
      "json(tx-1 created)" rfl rfl rfl rfl rfl rfl rfl rfl).2.2.1,
   (create_then_get_round_trip envOK envOK noData tx1 [stamp 1700000000 tx1]
      "json(tx-1 created)" rfl rfl rfl rfl rfl rfl rfl rfl).2.2.2.2.1⟩

theorem cachedTx_none_of_no_record (env : Env) (st : Backends) (id : String)
    (hmiss : (∃ e, RedisService.Get env st.redis id = .error e) ∨
      (∃ cached e, RedisService.Get env st.redis id = .ok cached ∧
        env.Unmarshal cached = .error e)) :
    cachedTx env st id = none := by
  unfold cachedTx
  rcases hmiss with ⟨e, h⟩ | ⟨cached, e, h, hu⟩
  · simp [h]
  · simp [h, hu]

/-- C6: when the cache read fails (a miss is the failure `redis.Nil`) or its
value does not deserialize, PostgreSQL is queried.  If it holds no row for the
identifier, or the query fails with `gorm.ErrRecordNotFound`, the call returns
the not-found error with the zero record; if the query fails with any other
error, that error is returned with the zero record.  In both cases the backends
are unchanged and the calls are the cache read and the PostgreSQL read: the
cache is not written. -/
theorem getTransactionByID_read_failure (env : Env) (st : Backends) (id : String)
    (hmiss : (∃ e, RedisService.Get env st.redis id = .error e) ∨
      (∃ cached e, RedisService.Get env st.redis id = .ok cached ∧
        env.Unmarshal cached = .error e)) :
    (env.firstErr = none → pgFind st.postgres id = none →
      dbFirst env st.postgres id = .error .ErrRecordNotFound) ∧
    (dbFirst env st.postgres id = .error .ErrRecordNotFound →
      GetTransactionByID env st id
        = { tx := Transaction.zero, err := some (.New "transaction not found"),
            st := st, calls := [.redisGet id, .dbFirst id] }) ∧
    (∀ e : Err, dbFirst env st.postgres id = .error e → e ≠ .ErrRecordNotFound →
      GetTransactionByID env st id
        = { tx := Transaction.zero, err := some e, st := st,
            calls := [.redisGet id, .dbFirst id] }) := by
  have hnone := cachedTx_none_of_no_record env st id hmiss
  refine ⟨dbFirst_absent env st.postgres id, ?_, ?_⟩
  · intro h
    exact getTransactionByID_absent env st id hnone h
  · intro e h hne
    simp [GetTransactionByID, hnone, h, hne]

/-- C6 at a concrete input: on empty backends the read of `tx-1` is not found;
with PostgreSQL failing, its error comes back. -/
theorem getTransactionByID_read_failure_witness :
    GetTransactionByID envOK noData "tx-1"
      = { tx := Transaction.zero, err := some (.New "transaction not found"),
          st := noData, calls := [.redisGet "tx-1", .dbFirst "tx-1"] } ∧
    GetTransactionByID envReadDown noData "tx-1"
      = { tx := Transaction.zero, err := some (.backend "pq: connection reset"),
          st := noData, calls := [.redisGet "tx-1", .dbFirst "tx-1"] } :=
  ⟨(getTransactionByID_read_failure envOK noData "tx-1"
      (Or.inl ⟨.Nil, rfl⟩)).2.1 rfl,
   (getTransactionByID_read_failure envReadDown noData "tx-1"
      (Or.inl ⟨.Nil, rfl⟩)).2.2 (.backend "pq: connection reset") rfl (by decide)⟩

theorem redisFind_set (entries : List RedisEntry) (key value : String) (expiration : Nat) :
    redisFind ({ key := key, value := value, expiration := expiration } ::
      entries.filter (fun e => e.key != key)) key
      = some { key := key, value := value, expiration := expiration } := by
  simp [redisFind]

theorem createTransaction_redisSet_expiration (env : Env) (st : Backends)
    (tx : Transaction) (key value : String) (expiration : Nat)
    (h : Call.redisSet key value expiration ∈ (CreateTransaction env st tx).calls) :
    expiration = Minute * 10 := by
  unfold CreateTransaction at h
  cases hb : env.beginErr with
  | some e => simp [hb] at h
  | none =>
    cases hc : dbCreate env st.postgres tx with
    | error e => simp [hb, hc] at h
    | ok pending =>
      cases hi : env.insertErr with
      | some e => simp [hb, hc, InsertTransaction, hi] at h
      | none =>
        cases hm : env.Marshal (stamp env.now tx) with
        | error e => simp [hb, hc, InsertTransaction, hi, hm] at h
        | ok txJSON =>
          cases hk : env.commitErr with
          | some e =>
            simp [hb, hc, InsertTransaction, hi, hm, hk] at h
            exact h.2.2
          | none =>
            simp [hb, hc, InsertTransaction, hi, hm, hk] at h
            exact h.2.2

/-- C7: when the cache yields no record and the PostgreSQL read succeeds with
`r`, `GetTransactionByID` returns `r` with no error, whatever the cache put
does.  Whenever `r` serializes to `txJSON`, the call after the two reads is a
cache put of `txJSON` under the identifier with an expiration of
`Minute * 10` (600000000000 ns, ten minutes); a put that succeeds leaves that
entry in the cache, a put that fails leaves the cache as it was.  Every cache
put of `CreateTransaction` carries the same expiration. -/
theorem getTransactionByID_refill (env : Env) (st : Backends) (id : String)
    (r : Transaction)
    (hmiss : (∃ e, RedisService.Get env st.redis id = .error e) ∨
      (∃ cached e, RedisService.Get env st.redis id = .ok cached ∧
        env.Unmarshal cached = .error e))
    (hread : dbFirst env st.postgres id = .ok r) :
    (GetTransactionByID env st id).tx = r ∧
    (GetTransactionByID env st id).err = none ∧
    (∀ txJSON : String, env.Marshal r = .ok txJSON →
      (GetTransactionByID env st id).calls
        = [.redisGet id, .dbFirst id, .redisSet id txJSON (Minute * 10)] ∧
      (env.setErr = none →
        redisFind (GetTransactionByID env st id).st.redis id
          = some { key := id, value := txJSON, expiration := Minute * 10 }) ∧
      (env.setErr ≠ none → (GetTransactionByID env st id).st = st)) ∧
    Minute * 10 = 600000000000 ∧
    (∀ (env1 : Env) (st1 : Backends) (tx : Transaction) (key value : String)
      (expiration : Nat),
      Call.redisSet key value expiration ∈ (CreateTransaction env1 st1 tx).calls →
      expiration = Minute * 10) := by
  have hnone := cachedTx_none_of_no_record env st id hmiss
  refine ⟨?_, ?_, ?_, by decide, createTransaction_redisSet_expiration⟩
  · cases hm : env.Marshal r <;> simp [GetTransactionByID, hnone, hread, hm]
  · cases hm : env.Marshal r <;> simp [GetTransactionByID, hnone, hread, hm]
  · intro txJSON hm
    refine ⟨by simp [GetTransactionByID, hnone, hread, hm], ?_, ?_⟩
    · intro hset
      have hfind := redisFind_set st.redis id txJSON (Minute * 10)
      simp [GetTransactionByID, hnone, hread, hm, RedisService.Set, hset, hfind]
    · intro hset
      obtain ⟨e, he⟩ := Option.ne_none_iff_exists'.mp hset
      simp [GetTransactionByID, hnone, hread, hm, RedisService.Set, he]

/-- C7 at a concrete input: `tx-1` held by PostgreSQL with a cold cache. -/
theorem getTransactionByID_refill_witness :
    (GetTransactionByID envOK coldCache "tx-1").tx = tx1 ∧
    (GetTransactionByID envOK coldCache "tx-1").err = none ∧
    (GetTransactionByID envOK coldCache "tx-1").calls
      = [.redisGet "tx-1", .dbFirst "tx-1", .redisSet "tx-1" "json(tx-1)" (Minute * 10)] ∧
    redisFind (GetTransactionByID envOK coldCache "tx-1").st.redis "tx-1"
      = some { key := "tx-1", value := "json(tx-1)", expiration := Minute * 10 } :=
  ⟨(getTransactionByID_refill envOK coldCache "tx-1" tx1 (Or.inl ⟨.Nil, rfl⟩) rfl).1,
   (getTransactionByID_refill envOK coldCache "tx-1" tx1 (Or.inl ⟨.Nil, rfl⟩) rfl).2.1,
   ((getTransactionByID_refill envOK coldCache "tx-1" tx1 (Or.inl ⟨.Nil, rfl⟩) rfl).2.2.1
      "json(tx-1)" rfl).1,
   ((getTransactionByID_refill envOK coldCache "tx-1" tx1 (Or.inl ⟨.Nil, rfl⟩) rfl).2.2.1
      "json(tx-1)" rfl).2.1 rfl⟩

/-! ## The empty identifier -/

/-- C8, as stated, fails: on empty backends `GetTransactionByID ""` reads the
cache and then PostgreSQL, and fails with the very error it gives for the
absent identifier `tx-404`, the not-found error; the mock gives the same
not-found error for the empty identifier. -/
theorem getTransactionByID_empty_id_reaches_backends :
    (GetTransactionByID envOK noData "").calls = [.redisGet "", .dbFirst ""] ∧
    (GetTransactionByID envOK noData "").err = some (.New "transaction not found") ∧
    (GetTransactionByID envOK noData "").err
      = (GetTransactionByID envOK noData "tx-404").err ∧
    (NewMockTransactionService.GetTransactionByID "").2
      = some (.New "transaction not found") :=
  ⟨rfl, rfl, rfl, rfl⟩

/-- C8, amended: `GetTransactionByID` has no check on the identifier.  Called
with the empty identifier its first backend call is always a cache read under
the empty key; when the cache yields no record and PostgreSQL holds no row with
the empty identifier it then reads PostgreSQL and fails with the not-found
error and the zero record, leaving the backends unchanged.  The mock looks the
empty identifier up like any other and fails with the not-found error when its
map has no such key.  The empty identifier is turned away one layer up: the
controller `GetTransaction` replies 400 for it and makes no backend call. -/
theorem getTransactionByID_empty_id (env : Env) (st : Backends)
    (s : MockTransactionService) :
    (GetTransactionByID env st "").calls.head? = some (.redisGet "") ∧
    (cachedTx env st "" = none → env.firstErr = none → pgFind st.postgres "" = none →
      GetTransactionByID env st ""
        = { tx := Transaction.zero, err := some (.New "transaction not found"),
            st := st, calls := [.redisGet "", .dbFirst ""] }) ∧
    (s.transactions.lookup "" = none →
      s.GetTransactionByID "" = (Transaction.zero, some (.New "transaction not found"))) ∧
    GetTransaction env st "" = ({ status := 400, body := none }, st, []) := by
  refine ⟨?_, ?_, ?_, by simp [GetTransaction]⟩
  · unfold GetTransactionByID
    cases hc : cachedTx env st "" with
    | some tx => simp
    | none =>
      cases hf : dbFirst env st.postgres "" with
      | error e =>
        by_cases he : e = .ErrRecordNotFound <;> simp [he]
      | ok r =>
        cases hm : env.Marshal r <;> simp [hm]
  · intro hmiss hfirst habsent
    exact getTransactionByID_absent env st "" hmiss (dbFirst_absent env _ "" hfirst habsent)
  · intro h
    simp [MockTransactionService.GetTransactionByID, h]

/-- C8, amended, at a concrete input: the empty identifier on empty backends
and on a fresh mock. -/
theorem getTransactionByID_empty_id_witness :
    GetTransactionByID envOK noData ""
      = { tx := Transaction.zero, err := some (.New "transaction not found"),
          st := noData, calls := [.redisGet "", .dbFirst ""] } ∧
    NewMockTransactionService.GetTransactionByID ""
      = (Transaction.zero, some (.New "transaction not found")) :=
  ⟨(getTransactionByID_empty_id envOK noData NewMockTransactionService).2.1 rfl rfl rfl,
   (getTransactionByID_empty_id envOK noData NewMockTransactionService).2.2.1 rfl⟩

/-! ## Validation -/

/-- C9, as stated, fails: `tx-bad` breaks the data model (its direction is
`transfer`), yet with every backend succeeding `CreateTransaction` returns it
(with its timestamps filled) with no error and writes it to PostgreSQL,
Cassandra, Redis and Kafka. -/
theorem createTransaction_accepts_invalid_record :
    ¬ DataModelInvariant txBad ∧
    (CreateTransaction envOK noData txBad).err = none ∧
    (CreateTransaction envOK noData txBad).tx = stamp 1700000000 txBad ∧
    (CreateTransaction envOK noData txBad).st
      = { postgres := [stamp 1700000000 txBad], cassandra := [cassRow txBad],
          redis := [{ key := "tx-bad", value := "json(tx-bad)", expiration := Minute * 10 }],
          kafka := ["json(tx-bad)"] } := by
  refine ⟨?_, rfl, rfl, rfl⟩
  intro h
  have hdir := h.2.2.2.2.1
  revert hdir
  simp [txBad]

/-- C9, amended: `CreateTransaction` checks nothing about the amounts, the fee,
the direction or the status.  For every record with a non-empty identifier,
whether or not it meets the data model, if begin, both inserts, serialization
and commit succeed, the record is returned with no error after the full
sequence of backend calls, and it is committed to PostgreSQL and written to
Cassandra.  The record returned, serialized and committed is the input with
its timestamps filled; no other field is touched. -/
theorem createTransaction_no_validation (env : Env) (st : Backends) (tx : Transaction)
    (pending : List Transaction) (txJSON : String)
    (hid : tx.ID ≠ "")
    (hbegin : env.beginErr = none)
    (hcreate : dbCreate env st.postgres tx = .ok pending)
    (hinsert : env.insertErr = none)
    (hmarshal : env.Marshal (stamp env.now tx) = .ok txJSON)
    (hcommit : env.commitErr = none) :
    (CreateTransaction env st tx).err = none ∧
    (CreateTransaction env st tx).tx = stamp env.now tx ∧
    { (CreateTransaction env st tx).tx with
        CreatedAt := tx.CreatedAt, UpdatedAt := tx.UpdatedAt } = tx ∧
    (CreateTransaction env st tx).calls
      = [.dbBegin, .dbCreate tx, .cassandraInsert (cassRow tx),
         .redisSet tx.ID txJSON (Minute * 10), .kafkaPublish txJSON, .dbCommit] ∧
    (CreateTransaction env st tx).st.postgres = st.postgres ++ [stamp env.now tx] ∧
    cassFind (CreateTransaction env st tx).st.cassandra tx.ID = some (cassRow tx) := by
  have _ := hid
  obtain ⟨hc, habsent, _⟩ := dbCreate_ok env st.postgres tx pending hcreate
  have hins := cassFind_inserted st.cassandra tx
  have hrun : CreateTransaction env st tx =
      { tx := stamp env.now tx, err := none,
        st := { postgres := st.postgres ++ [stamp env.now tx],
                cassandra := cassRow tx :: st.cassandra.filter (fun r => r.id != tx.ID),
                redis := (RedisService.Set env st.redis tx.ID txJSON (Minute * 10)).2,
                kafka := (KafkaService.Publish env st.kafka txJSON).2 },
        calls := [.dbBegin, .dbCreate tx, .cassandraInsert (cassRow tx),
          .redisSet tx.ID txJSON (Minute * 10), .kafkaPublish txJSON, .dbCommit] } := by
    simp [CreateTransaction, dbCreate, InsertTransaction, hbegin, hc, habsent, hinsert,
      hmarshal, hcommit, cassRow_stamp, stamp_ID]
  rw [hrun]
  exact ⟨rfl, rfl, stamp_restore env.now tx, rfl, rfl, hins⟩

/-- C9, amended, at a concrete input: the invalid record `tx-bad` on empty
backends with every backend succeeding. -/
theorem createTransaction_no_validation_witness :
    ¬ DataModelInvariant txBad ∧
    (CreateTransaction envOK noData txBad).err = none ∧
    (CreateTransaction envOK noData txBad).tx = stamp 1700000000 txBad :=
  ⟨fun h => absurd h.2.2.2.2.1 (by simp [txBad]),
   (createTransaction_no_validation envOK noData txBad [stamp 1700000000 txBad]
      "json(tx-bad)" (by decide) rfl rfl rfl rfl rfl).1,
   (createTransaction_no_validation envOK noData txBad [stamp 1700000000 txBad]
      "json(tx-bad)" (by decide) rfl rfl rfl rfl rfl).2.1⟩

/-! ## The read path and the other backends -/

/-- C10: for every identifier, environment and state, `GetTransactionByID`
leaves PostgreSQL, Cassandra and Kafka exactly as they were, and each of its
backend calls is a cache read, a PostgreSQL read or a cache put: it makes no
Cassandra call and no publish.  Only the cache can differ afterwards. -/
theorem getTransactionByID_frame (env : Env) (st : Backends) (id : String) :
    (GetTransactionByID env st id).st.postgres = st.postgres ∧
    (GetTransactionByID env st id).st.cassandra = st.cassandra ∧
    (GetTransactionByID env st id).st.kafka = st.kafka ∧
    (∀ c ∈ (GetTransactionByID env st id).calls,
      c = .redisGet id ∨ c = .dbFirst id ∨
        ∃ value : String, c = .redisSet id value (Minute * 10)) := by
  unfold GetTransactionByID
  cases hc : cachedTx env st id with
  | some tx => simp
  | none =>
    cases hf : dbFirst env st.postgres id with
    | error e =>
      by_cases he : e = .ErrRecordNotFound <;> simp [he]
    | ok r =>
      cases hm : env.Marshal r <;> simp [hm]

/-! ## The in-memory service -/

theorem lookup_filter_self (l : List (String × Transaction)) (k : String) :
    (l.filter (fun kv => kv.1 != k)).lookup k = none := by
  induction l with
  | nil => rfl
  | cons kv rest ih =>
    obtain ⟨key, tx⟩ := kv
    by_cases h : key = k
    · simp [List.filter_cons, h, ih]
    · have hk : (k == key) = false := by simpa using fun e : k = key => h e.symm
      simp [List.filter_cons, h, List.lookup_cons, hk, ih]

theorem lookup_filter_other (l : List (String × Transaction)) (k id : String)
    (hne : id ≠ k) : (l.filter (fun kv => kv.1 != k)).lookup id = l.lookup id := by
  induction l with
  | nil => rfl
  | cons kv rest ih =>
    obtain ⟨key, tx⟩ := kv
    by_cases h : key = k
    · subst h
      have hk : (id == key) = false := by simpa using hne
      simp [List.filter_cons, List.lookup_cons, hk, ih]
    · by_cases hid : id = key
      · simp [List.filter_cons, h, List.lookup_cons, hid]
      · have hk : (id == key) = false := by simpa using hid
        simp [List.filter_cons, h, List.lookup_cons, hk, ih]

theorem mock_create_fresh (s : MockTransactionService) (tx : Transaction)
    (hid : tx.ID ≠ "") (hfresh : s.transactions.lookup tx.ID = none) :
    s.CreateTransaction tx
      = ((tx, none),
         { transactions :=
             (tx.ID, tx) :: s.transactions.filter (fun kv => kv.1 != tx.ID) }) := by
  simp [MockTransactionService.CreateTransaction, hid, hfresh]

theorem mock_create_empty_id (s : MockTransactionService) (tx : Transaction)
    (hid : tx.ID = "") :
    s.CreateTransaction tx
      = ((Transaction.zero, some (.New "transaction ID cannot be empty")), s) := by
  simp [MockTransactionService.CreateTransaction, hid]

theorem mock_create_duplicate (s : MockTransactionService) (tx old : Transaction)
    (hid : tx.ID ≠ "") (hold : s.transactions.lookup tx.ID = some old) :
    s.CreateTransaction tx
      = ((Transaction.zero, some (.New "transaction ID already exists")), s) := by
  simp [MockTransactionService.CreateTransaction, hid, hold]

theorem mock_lookup_after_create (s : MockTransactionService) (tx : Transaction)
    (id : String) :
    (s.CreateTransaction tx).2.transactions.lookup id
      = if (s.CreateTransaction tx).1.2 = none ∧ id = tx.ID then some tx
        else s.transactions.lookup id := by
  by_cases hid : tx.ID = ""
  · simp [mock_create_empty_id s tx hid]
  · cases hold : s.transactions.lookup tx.ID with
    | some old => simp [mock_create_duplicate s tx old hid hold]
    | none =>
      rw [mock_create_fresh s tx hid hold]
      by_cases h : id = tx.ID
      · simp [h, List.lookup_cons]
      · have hk : (id == tx.ID) = false := by simpa using h
        simp [h, List.lookup_cons, hk, lookup_filter_other s.transactions tx.ID id h]

/-- C11: for every state of the map and every record whose identifier is
non-empty and not yet a key, the mock `CreateTransaction` returns the record
itself with no error, and `GetTransactionByID` on that identifier right after
returns the same record with no error. -/
theorem mock_create_then_get (s : MockTransactionService) (tx : Transaction)
    (hid : tx.ID ≠ "") (hfresh : s.transactions.lookup tx.ID = none) :
    (s.CreateTransaction tx).1 = (tx, none) ∧
    (s.CreateTransaction tx).2.GetTransactionByID tx.ID = (tx, none) := by
  rw [mock_create_fresh s tx hid hfresh]
  refine ⟨rfl, ?_⟩
  simp [MockTransactionService.GetTransactionByID, List.lookup_cons]

/-- C11 at a concrete input: `tx-2` created on a map that holds `tx-1`. -/
theorem mock_create_then_get_witness :
    tx2.ID ≠ "" ∧ mockWithTx1.transactions.lookup tx2.ID = none ∧
    (mockWithTx1.CreateTransaction tx2).1 = (tx2, none) ∧
    (mockWithTx1.CreateTransaction tx2).2.GetTransactionByID tx2.ID = (tx2, none) :=
  ⟨by decide, rfl, mock_create_then_get mockWithTx1 tx2 (by decide) rfl⟩

theorem mock_create_error_cases (s : MockTransactionService) (tx : Transaction) :
    (s.CreateTransaction tx).1.2 = none ↔
      tx.ID ≠ "" ∧ s.transactions.lookup tx.ID = none := by
  by_cases hid : tx.ID = ""
  · simp [mock_create_empty_id s tx hid, hid]
  · cases hold : s.transactions.lookup tx.ID with
    | some old => simp [mock_create_duplicate s tx old hid hold]
    | none => simp [mock_create_fresh s tx hid hold, hid]

/-- C12: for every state of the map and every record, the mock
`CreateTransaction` returns an error exactly when the identifier is empty or
already a key; the error is "transaction ID cannot be empty" in the first case
and "transaction ID already exists" in the second; a failing call leaves the
map as it was; and after any call, failing or not, every identifier that had a
record still yields that same record from `GetTransactionByID`, so nothing
stored is ever overwritten. -/
theorem mock_create_error_iff (s : MockTransactionService) (tx : Transaction) :
    ((s.CreateTransaction tx).1.2 ≠ none ↔
      tx.ID = "" ∨ s.transactions.lookup tx.ID ≠ none) ∧
    (tx.ID = "" →
      (s.CreateTransaction tx).1
        = (Transaction.zero, some (.New "transaction ID cannot be empty"))) ∧
    (tx.ID ≠ "" → s.transactions.lookup tx.ID ≠ none →
      (s.CreateTransaction tx).1
        = (Transaction.zero, some (.New "transaction ID already exists"))) ∧
    ((s.CreateTransaction tx).1.2 ≠ none → (s.CreateTransaction tx).2 = s) ∧
    (∀ (id : String) (old : Transaction), s.transactions.lookup id = some old →
      (s.CreateTransaction tx).2.GetTransactionByID id = (old, none)) := by
  have hcases := mock_create_error_cases s tx
  refine ⟨?_, ?_, ?_, ?_, ?_⟩
  · rw [Ne, hcases]
    constructor
    · intro h
      by_cases hid : tx.ID = ""
      · exact Or.inl hid
      · exact Or.inr fun hl => h ⟨hid, hl⟩
    · rintro (h | h) ⟨hid, hl⟩
      · exact hid h
      · exact h hl
  · intro hid
    rw [mock_create_empty_id s tx hid]
  · intro hid hold
    obtain ⟨old, hold⟩ := Option.ne_none_iff_exists'.mp hold
    rw [mock_create_duplicate s tx old hid hold]
  · intro herr
    by_cases hid : tx.ID = ""
    · rw [mock_create_empty_id s tx hid]
    · cases hold : s.transactions.lookup tx.ID with
      | some old => rw [mock_create_duplicate s tx old hid hold]
      | none => exact absurd (hcases.mpr ⟨hid, hold⟩) herr
  · intro id old hstored
    have hlook := mock_lookup_after_create s tx id
    have hkeep : (s.CreateTransaction tx).2.transactions.lookup id = some old := by
      rw [hlook, if_neg, hstored]
      rintro ⟨hok, hsame⟩
      have hfresh := (hcases.mp hok).2
      rw [← hsame, hstored] at hfresh
      exact Option.noConfusion hfresh
    simp [MockTransactionService.GetTransactionByID, hkeep]

/-- C12 at a concrete input: a second record under `tx-1` on a map that holds
`tx-1` is refused, the map is unchanged and the first record is still read. -/
theorem mock_create_error_iff_witness :
    (mockWithTx1.CreateTransaction tx1Again).1
      = (Transaction.zero, some (.New "transaction ID already exists")) ∧
    (mockWithTx1.CreateTransaction tx1Again).2 = mockWithTx1 ∧
    (mockWithTx1.CreateTransaction tx1Again).2.GetTransactionByID "tx-1" = (tx1, none) :=
  ⟨(mock_create_error_iff mockWithTx1 tx1Again).2.2.1 (by decide)
      (by rw [show mockWithTx1.transactions.lookup tx1Again.ID = some tx1 from rfl]
          exact Option.some_ne_none tx1),
   (mock_create_error_iff mockWithTx1 tx1Again).2.2.2.1
      (by rw [show (mockWithTx1.CreateTransaction tx1Again).1.2
                = some (.New "transaction ID already exists") from rfl]
          exact Option.some_ne_none _),
   (mock_create_error_iff mockWithTx1 tx1Again).2.2.2.2 "tx-1" tx1 rfl⟩

theorem mock_get_not_found_iff (s : MockTransactionService) (id : String) :
    (s.GetTransactionByID id).2 = some (.New "transaction not found") ↔
      s.transactions.lookup id = none := by
  unfold MockTransactionService.GetTransactionByID
  cases h : s.transactions.lookup id <;> simp

theorem createAll_lookup_none (txs : List Transaction) :
    ∀ (s : MockTransactionService) (id : String),
      (createAll s txs).1.transactions.lookup id = none ↔
        s.transactions.lookup id = none ∧
        ¬ ∃ p ∈ txs.zip (createAll s txs).2, p.1.ID = id ∧ p.2.2 = none := by
  induction txs with
  | nil => intro s id; simp [createAll]
  | cons tx rest ih =>
    intro s id
    have hstep := mock_lookup_after_create s tx id
    have hrest := ih (s.CreateTransaction tx).2 id
    simp only [createAll, List.zip_cons_cons, List.mem_cons]
    rw [hrest, hstep]
    constructor
    · rintro ⟨hone, hnone⟩
      by_cases hnew : (s.CreateTransaction tx).1.2 = none ∧ id = tx.ID
      · rw [if_pos hnew] at hone
        exact Option.noConfusion hone
      · rw [if_neg hnew] at hone
        refine ⟨hone, ?_⟩
        rintro ⟨p, hp | hp, hpid, hperr⟩
        · subst hp
          exact hnew ⟨hperr, hpid.symm⟩
        · exact hnone ⟨p, hp, hpid, hperr⟩
    · rintro ⟨hold, hnone⟩
      have hnew : ¬ ((s.CreateTransaction tx).1.2 = none ∧ id = tx.ID) := by
        rintro ⟨hok, hsame⟩
        exact hnone ⟨(tx, (s.CreateTransaction tx).1), Or.inl rfl, hsame.symm, hok⟩
      rw [if_neg hnew]
      refine ⟨hold, ?_⟩
      rintro ⟨p, hp, hpid, hperr⟩
      exact hnone ⟨p, Or.inr hp, hpid, hperr⟩

theorem mock_create_filed (s : MockTransactionService) (tx : Transaction)
    (hs : ∀ (k : String) (r : Transaction), (k, r) ∈ s.transactions → r.ID = k ∧ k ≠ "") :
    ∀ (k : String) (r : Transaction),
      (k, r) ∈ (s.CreateTransaction tx).2.transactions → r.ID = k ∧ k ≠ "" := by
  intro k r hmem
  by_cases hid : tx.ID = ""
  · rw [mock_create_empty_id s tx hid] at hmem
    exact hs k r hmem
  · cases hold : s.transactions.lookup tx.ID with
    | some old =>
      rw [mock_create_duplicate s tx old hid hold] at hmem
      exact hs k r hmem
    | none =>
      rw [mock_create_fresh s tx hid hold] at hmem
      rcases List.mem_cons.mp hmem with hhead | htail
      · injection hhead with hk hr
        subst hk hr
        exact ⟨rfl, hid⟩
      · exact hs k r (List.mem_filter.mp htail).1

theorem createAll_filed (txs : List Transaction) :
    ∀ s : MockTransactionService,
      (∀ (k : String) (r : Transaction), (k, r) ∈ s.transactions → r.ID = k ∧ k ≠ "") →
      ∀ (k : String) (r : Transaction),
        (k, r) ∈ (createAll s txs).1.transactions → r.ID = k ∧ k ≠ "" := by
  induction txs with
  | nil => intro s hs; simpa [createAll] using hs
  | cons tx rest ih =>
    intro s hs
    simpa [createAll] using ih (s.CreateTransaction tx).2 (mock_create_filed s tx hs)

/-- C13: after any finite sequence of `CreateTransaction` calls on a fresh
mock, `GetTransactionByID id` fails with the not-found error exactly when no
call of the sequence on a record with identifier `id` returned without error;
it fails in particular when no record of the sequence carries `id`; and every
pair in the map holds a record under its own identifier, which is not
empty. -/
theorem mock_not_found_iff_never_created (txs : List Transaction) (id : String) :
    (((createAll NewMockTransactionService txs).1.GetTransactionByID id).2
        = some (.New "transaction not found") ↔
      ¬ ∃ p ∈ txs.zip (createAll NewMockTransactionService txs).2,
          p.1.ID = id ∧ p.2.2 = none) ∧
    (id ∉ txs.map (fun tx => tx.ID) →
      (createAll NewMockTransactionService txs).1.GetTransactionByID id
        = (Transaction.zero, some (.New "transaction not found"))) ∧
    (∀ (k : String) (r : Transaction),
      (k, r) ∈ (createAll NewMockTransactionService txs).1.transactions →
        r.ID = k ∧ k ≠ "") := by
  have hiff := createAll_lookup_none txs NewMockTransactionService id
  have hfresh : NewMockTransactionService.transactions.lookup id = none := rfl
  refine ⟨?_, ?_, ?_⟩
  · rw [mock_get_not_found_iff, hiff]
    exact ⟨fun h => h.2, fun h => ⟨hfresh, h⟩⟩
  · intro hnever
    have hnone : (createAll NewMockTransactionService txs).1.transactions.lookup id
        = none := by
      rw [hiff]
      refine ⟨hfresh, ?_⟩
      rintro ⟨p, hp, hpid, _⟩
      apply hnever
      exact List.mem_map.mpr ⟨p.1, (List.of_mem_zip hp).1, hpid⟩
    simp [MockTransactionService.GetTransactionByID, hnone]
  · apply createAll_filed txs NewMockTransactionService
    intro k r hmem
    simp [NewMockTransactionService] at hmem

/-- C13 at a concrete input: after creating `tx-1`, a duplicate of it and
`tx-2`, the identifier `tx-3` is not found. -/
theorem mock_not_found_iff_never_created_witness :
    "tx-3" ∉ [tx1, tx1Again, tx2].map (fun tx => tx.ID) ∧
    (createAll NewMockTransactionService [tx1, tx1Again, tx2]).1.GetTransactionByID "tx-3"
      = (Transaction.zero, some (.New "transaction not found")) :=
  ⟨by decide,
   (mock_not_found_iff_never_created [tx1, tx1Again, tx2] "tx-3").2.1 (by decide)⟩

/-! ## The binding rule -/

theorem binding_spelled_out (tx : Transaction) :
    tx.binding = true ↔
      tx.ID ≠ "" ∧ tx.UserID ≠ 0 ∧ 0 < tx.Amount ∧
      (tx.Type_ = "deposit" ∨ tx.Type_ = "withdrawal") ∧
      (tx.Status = "pending" ∨ tx.Status = "completed" ∨ tx.Status = "failed") ∧
      tx.CryptoType ≠ "" ∧ tx.TransactionID ≠ "" ∧ 0 < tx.CryptoAmount ∧
      tx.CryptoSymbol ≠ "" ∧ 0 < tx.TransactionFee := by
  simp only [Transaction.binding, requiredString, requiredUint, requiredFloat, gtFloat,
    oneof, Bool.and_eq_true, bne_iff_ne, ne_eq, decide_eq_true_eq, List.contains_cons,
    List.contains_nil, Bool.or_false, Bool.or_eq_true, beq_iff_eq]
  constructor
  · rintro ⟨⟨⟨⟨⟨⟨⟨⟨⟨hid, huser⟩, _, hamount⟩, _, hdir⟩, _, hstatus⟩, htype⟩, htid⟩,
      _, hcrypto⟩, hsym⟩, _, hfee⟩
    exact ⟨hid, huser, hamount, hdir, hstatus, htype, htid, hcrypto, hsym, hfee⟩
  · rintro ⟨hid, huser, hamount, hdir, hstatus, htype, htid, hcrypto, hsym, hfee⟩
    refine ⟨⟨⟨⟨⟨⟨⟨⟨⟨hid, huser⟩, ne_of_gt hamount, hamount⟩, ?_, hdir⟩, ?_, hstatus⟩,
      htype⟩, htid⟩, ne_of_gt hcrypto, hcrypto⟩, hsym⟩, ne_of_gt hfee, hfee⟩
    · rcases hdir with h | h <;> rw [h] <;> decide
    · rcases hstatus with h | h | h <;> rw [h] <;> decide

/-- C14, as stated, fails: `tx-1` with a fee of zero meets every invariant of
the data model and is refused by the binding rule; so is `tx-1` with an empty
asset symbol. -/
theorem binding_refuses_zero_fee :
    DataModelInvariant txFeeZero ∧ txFeeZero.binding = false ∧
    DataModelInvariant txNoSymbol ∧ txNoSymbol.binding = false := by
  refine ⟨?_, ?_, ?_, ?_⟩
  · simp [DataModelInvariant, txFeeZero, tx1]
  · simp [Transaction.binding, requiredFloat, txFeeZero]
  · simp [DataModelInvariant, txNoSymbol, tx1]
  · simp [Transaction.binding, requiredString, txNoSymbol]

/-- C14, amended: the binding rule accepts a record exactly when its
identifier, owner, asset type, transaction identifier and asset symbol are not
zero values, its amount, asset amount and fee are strictly positive, its
direction is deposit or withdrawal and its status is pending, completed or
failed.  Every accepted record meets the invariants of the data model; a
record with a fee of zero is refused; and the controller answers a refused
record with 400 without calling a backend. -/
theorem binding_iff (tx : Transaction) :
    (tx.binding = true ↔
      tx.ID ≠ "" ∧ tx.UserID ≠ 0 ∧ 0 < tx.Amount ∧
      (tx.Type_ = "deposit" ∨ tx.Type_ = "withdrawal") ∧
      (tx.Status = "pending" ∨ tx.Status = "completed" ∨ tx.Status = "failed") ∧
      tx.CryptoType ≠ "" ∧ tx.TransactionID ≠ "" ∧ 0 < tx.CryptoAmount ∧
      tx.CryptoSymbol ≠ "" ∧ 0 < tx.TransactionFee) ∧
    (tx.binding = true → DataModelInvariant tx) ∧
    (tx.TransactionFee = 0 → tx.binding = false) ∧
    (tx.binding = false → ∀ (env : Env) (st : Backends),
      TransactionController.CreateTransaction env st tx
        = ({ status := 400, body := none }, st, [])) := by
  have hspell := binding_spelled_out tx
  refine ⟨hspell, ?_, ?_, ?_⟩
  · intro h
    obtain ⟨hid, _, hamount, hdir, hstatus, _, _, hcrypto, _, hfee⟩ := hspell.mp h
    exact ⟨hid, hamount, hcrypto, le_of_lt hfee, hdir, hstatus⟩
  · intro hfee
    cases hb : tx.binding with
    | false => rfl
    | true =>
      have hpos := (hspell.mp hb).2.2.2.2.2.2.2.2.2
      rw [hfee] at hpos
      exact absurd hpos (lt_irrefl 0)
  · intro h env st
    simp [TransactionController.CreateTransaction, h]

/-- C14, amended, at a concrete input: `tx-1` is accepted and meets the data
model; `tx-1` with a fee of zero is refused with 400. -/
theorem binding_iff_witness :
    tx1.binding = true ∧ DataModelInvariant tx1 ∧
    TransactionController.CreateTransaction envOK noData txFeeZero
      = ({ status := 400, body := none }, noData, []) :=
  have h1 : tx1.binding = true := by
    simp [Transaction.binding, requiredString, requiredUint, requiredFloat, gtFloat,
      oneof, tx1]
  ⟨h1, (binding_iff tx1).2.1 h1,
   (binding_iff txFeeZero).2.2.2 ((binding_iff txFeeZero).2.2.1 rfl) envOK noData⟩

end CryptoExchange
